import Mathlib

/-!
Shallow embedding of the assistant admin application (src/app.py).

The application is a Streamlit admin panel over a relational store.  We embed
the database-facing core as pure Lean functions over explicit state values:

* the `admin_users` table becomes `AdminStore` (a list of `AdminCredential`);
* the identity / device / voice tables become the `DB` record;
* SHA-256 (`hashlib.sha256(...).hexdigest()`) is abstracted as an explicit
  function argument `hashf : String → String`, applied to `password ++ salt`
  exactly as the source concatenates before hashing;
* Streamlit session state (`st.session_state`) becomes the `Session` record;
* psycopg's connection-level transaction (`conn.commit` / `conn.rollback`)
  becomes: the setup workflow computes on a working copy and the caller keeps
  the original state whenever any step raises (`Except.error`);
* random generators (`ULID()`, `secrets.token_hex`, `gen_random_uuid()`) become
  explicit inputs or fresh counters drawn from the state.

Python truthiness tests (`if not voice_data`, `if user_id:`) are translated
literally: an empty list, empty string, `None`, and `0` are falsy.
-/

/-- One row of the `admin_users` table (columns used by the code). -/
structure AdminCredential where
  username : String
  passwordHash : String
  salt : String
  isActive : Bool
deriving DecidableEq

/-- The `admin_users` table; `username` is unique so `find?` picks the row. -/
def AdminStore := List AdminCredential

instance : DecidableEq AdminStore := by
  unfold AdminStore
  infer_instance

/-- SELECT of the row whose username matches (the WHERE clause of the source). -/
def findCred (store : AdminStore) (u : String) : Option AdminCredential :=
  List.find? (fun c => c.username == u) store

/-- Embedding of `verify_password` (src/app.py lines 830-854): fetch the row for
the username; if absent return False; if `is_active` is false return False;
otherwise compare `sha256(password + salt)` with the stored hash. -/
def verify_password (hashf : String → String) (store : AdminStore) (username password : String) : Bool :=
  match findCred store username with
  | none => false
  | some c =>
      if !c.isActive then false
      else hashf (password ++ c.salt) == c.passwordHash

/-- Embedding of the UPDATE in `change_password_form` (lines 932-938): replace
hash and salt of every row with the given username (unique, so at most one). -/
def rotate (hashf : String → String) (store : AdminStore) (username newPassword newSalt : String) : AdminStore :=
  List.map (fun c =>
    if c.username == username then
      AdminCredential.mk c.username (hashf (newPassword ++ newSalt)) newSalt c.isActive
    else c) store

/-- Outcome of one submission of the change-password form. -/
inductive ChangeOutcome where
  | missingFields
  | mismatch
  | wrongCurrent
  | changed
deriving DecidableEq

/-- Embedding of `change_password_form` (lines 901-941), the submit branch:
empty-field check, `new != confirm` check, `verify_password` on the current
password, then the rotation UPDATE.  `newSalt` models `secrets.token_hex(16)`. -/
def change_password_form (hashf : String → String) (store : AdminStore)
    (username currentPw newPw confirmPw newSalt : String) : AdminStore × ChangeOutcome :=
  if currentPw == "" || newPw == "" || confirmPw == "" then (store, ChangeOutcome.missingFields)
  else if newPw != confirmPw then (store, ChangeOutcome.mismatch)
  else if !(verify_password hashf store username currentPw) then (store, ChangeOutcome.wrongCurrent)
  else (rotate hashf store username newPw newSalt, ChangeOutcome.changed)

/-- Streamlit session state used by the login flow: `authenticated`,
`username`, `login_attempts` (lines 36-40). -/
structure Session where
  authenticated : Bool
  username : Option String
  login_attempts : Nat
deriving DecidableEq

/-- Result of one submission of the login form: the updated session state, the
function's return value, whether `verify_password` was consulted, and whether
`st.stop()` was reached. -/
structure LoginResult where
  session : Session
  accepted : Bool
  verifyConsulted : Bool
  halted : Bool
deriving DecidableEq

/-- Embedding of `login_form` (lines 856-891), the submit branch: empty-field
check (no verification), then `verify_password`; on success set
`authenticated` and `username` (the attempt counter is not touched); on
failure increment `login_attempts` and halt the run when the counter has
reached 5. -/
def login_form (hashf : String → String) (store : AdminStore) (s : Session)
    (username password : String) : LoginResult :=
  if username == "" || password == "" then
    LoginResult.mk s false false false
  else if verify_password hashf store username password then
    LoginResult.mk { s with authenticated := true, username := some username } true true false
  else
    LoginResult.mk { s with login_attempts := s.login_attempts + 1 } false true
      (decide (5 ≤ s.login_attempts + 1))

/-- Embedding of `logout` (lines 893-899): clear authentication and username,
reset `login_attempts` to 0. -/
def logout (_s : Session) : Session :=
  Session.mk false none 0

/-- One row of `device_types`. -/
structure DeviceType where
  id : Nat
  type_name : String
  description : String
deriving DecidableEq

/-- One row of `devices` (columns touched by the embedded operations).
`unique_identifier` models `gen_random_uuid()` as a fresh counter value. -/
structure Device where
  id : Nat
  device_name : String
  device_type_id : Nat
  unique_identifier : Nat
deriving DecidableEq

/-- One row of `users`. -/
structure UserRow where
  user_id : String
  full_name : String
  nick_name : String
  email : String
  phone_number : String
  character_sheet : String
  life_style_and_preferences : String
  user_role_id : Nat
deriving DecidableEq

/-- One row of `ai`. -/
structure AIRow where
  ai_id : Nat
  ai_name : String
  ai_base_prompt : String
deriving DecidableEq

/-- One row of `voice_recognition`.  The source inserts the device id into the
`recorded_on` column (lines 144-147, 157-160, 293-301). -/
structure VoiceRow where
  user_id : Option String
  ai_id : Option Nat
  voice_recognition : List Nat
  recorded_on : Nat
deriving DecidableEq

/-- The relational state the embedded operations read and write, with fresh
counters for the store-generated ids (SERIAL columns and `gen_random_uuid`). -/
structure DB where
  device_types : List DeviceType
  devices : List Device
  users : List UserRow
  ais : List AIRow
  voice_recognition : List VoiceRow
  next_type_id : Nat
  next_device_id : Nat
  next_ai_id : Nat
  next_uuid : Nat
deriving DecidableEq

/-- Description string hard-coded at line 76. -/
def micDescription : String := "A microphone device used for voice recordings"

/-- Embedding of the first statement of `get_or_create_microphone_device`
(lines 74-78): INSERT the 'Microphone' type ON CONFLICT (type_name) DO
NOTHING, i.e. insert only when no row with that name exists. -/
def micTypeUpsert (db : DB) : DB :=
  match List.find? (fun t => t.type_name == "Microphone") db.device_types with
  | some _ => db
  | none =>
      { db with
        device_types := db.device_types ++ [DeviceType.mk db.next_type_id "Microphone" micDescription],
        next_type_id := db.next_type_id + 1 }

/-- Embedding of `get_or_create_microphone_device` (lines 71-90): ensure the
'Microphone' type exists (DO NOTHING on conflict), SELECT its id, then always
INSERT a new device row with a freshly generated unique identifier, returning
the new device id. -/
def get_or_create_microphone_device (db : DB) (device_name : String) : DB × Nat :=
  let db1 := micTypeUpsert db
  let device_type_id :=
    (Option.map DeviceType.id (List.find? (fun t => t.type_name == "Microphone") db1.device_types)).getD 0
  ({ db1 with
      devices := db1.devices ++ [Device.mk db1.next_device_id device_name device_type_id db1.next_uuid],
      next_device_id := db1.next_device_id + 1,
      next_uuid := db1.next_uuid + 1 },
   db1.next_device_id)

/-- Embedding of `create_device_type` (lines 248-260): INSERT ON CONFLICT
(type_name) DO UPDATE SET description, RETURNING id.  When a row with the name
exists its description is overwritten and its id returned; otherwise a new row
is inserted under a fresh id. -/
def create_device_type (db : DB) (type_name description : String) : DB × Nat :=
  match List.find? (fun t => t.type_name == type_name) db.device_types with
  | some t =>
      ({ db with
          device_types := List.map (fun r =>
            if r.type_name == type_name then DeviceType.mk r.id r.type_name description else r)
            db.device_types },
       t.id)
  | none =>
      ({ db with
          device_types := db.device_types ++ [DeviceType.mk db.next_type_id type_name description],
          next_type_id := db.next_type_id + 1 },
       db.next_type_id)

/-- Modelled from the spec: the schema of the `voice_recognition` table is not
part of src/ (only src/app.py is in the repository), and per the spec a voice
sample's device reference must name an existing Device, so the INSERT raises a
storage error when the referenced device id is absent. -/
def insertVoiceRow (db : DB) (row : VoiceRow) : Except Unit DB :=
  if List.any db.devices (fun d => d.id == row.recorded_on) then
    Except.ok { db with voice_recognition := db.voice_recognition ++ [row] }
  else Except.error ()

/-- Python truthiness of an optional integer: `None` and `0` are falsy. -/
def truthyNat : Option Nat → Bool
  | none => false
  | some n => n != 0

/-- Python truthiness of an optional string: `None` and `""` are falsy. -/
def truthyStr : Option String → Bool
  | none => false
  | some s => s != ""

/-- Embedding of `save_voice_recognition` (lines 286-304): guard
`not voice_data or (user_id is None and ai_id is None) or not device_id`
returns False; otherwise the user branch inserts when `user_id` is truthy,
else the AI branch inserts when `ai_id` is truthy, and the function returns
True (also when neither branch inserted anything). -/
def save_voice_recognition (db : DB) (user_id : Option String) (ai_id : Option Nat)
    (voice_data : List Nat) (device_id : Option Nat) : Except Unit (DB × Bool) :=
  if voice_data.isEmpty || (user_id.isNone && ai_id.isNone) || !(truthyNat device_id) then
    Except.ok (db, false)
  else if truthyStr user_id then
    match insertVoiceRow db (VoiceRow.mk user_id none voice_data ((device_id).getD 0)) with
    | Except.error e => Except.error e
    | Except.ok db1 => Except.ok (db1, true)
  else if truthyNat ai_id then
    match insertVoiceRow db (VoiceRow.mk none ai_id voice_data ((device_id).getD 0)) with
    | Except.error e => Except.error e
    | Except.ok db1 => Except.ok (db1, true)
  else Except.ok (db, true)

/-- The fields collected by the setup form.  `new_user_id` models the
`str(ULID())` generated at line 129; the two optional byte lists model the
uploaded voice files. -/
structure SetupInput where
  full_name : String
  nick_name : String
  email : String
  phone_number : String
  character_sheet : String
  life_style_preferences : String
  device_name : String
  voice_file : Option (List Nat)
  ai_name : String
  ai_base_prompt : String
  ai_voice_file : Option (List Nat)
  new_user_id : String
deriving DecidableEq

/-- The required-field validation of `setup_form` (lines 122-123): full name,
email, AI name, AI base prompt and device name must all be non-empty. -/
def requiredOk (inp : SetupInput) : Bool :=
  inp.full_name != "" && inp.email != "" && inp.ai_name != "" &&
    inp.ai_base_prompt != "" && inp.device_name != ""

/-- The users row inserted by `setup_form` (lines 135-139); `USER_ROLE_ID = 2`. -/
def userRowOf (inp : SetupInput) : UserRow :=
  UserRow.mk inp.new_user_id inp.full_name inp.nick_name inp.email inp.phone_number
    inp.character_sheet inp.life_style_preferences 2

/-- The users INSERT of `setup_form` (lines 135-140). -/
def setup_step_user (db : DB) (inp : SetupInput) : DB :=
  { db with users := db.users ++ [userRowOf inp] }

/-- The optional user voice INSERT of `setup_form` (lines 142-147): runs only
when a voice file was supplied; the device id is stored in `recorded_on`. -/
def setup_step_user_voice (db : DB) (inp : SetupInput) (device_id : Nat) : Except Unit DB :=
  match inp.voice_file with
  | some bytes => insertVoiceRow db (VoiceRow.mk (some inp.new_user_id) none bytes device_id)
  | none => Except.ok db

/-- The ai INSERT of `setup_form` (lines 149-153), RETURNING the new ai id. -/
def setup_step_ai (db : DB) (inp : SetupInput) : DB :=
  { db with
    ais := db.ais ++ [AIRow.mk db.next_ai_id inp.ai_name inp.ai_base_prompt],
    next_ai_id := db.next_ai_id + 1 }

/-- The optional ai voice INSERT of `setup_form` (lines 155-160). -/
def setup_step_ai_voice (db : DB) (inp : SetupInput) (ai_id device_id : Nat) : Except Unit DB :=
  match inp.ai_voice_file with
  | some bytes => insertVoiceRow db (VoiceRow.mk none (some ai_id) bytes device_id)
  | none => Except.ok db

/-- Propagation of a raised exception between statements of the try block: once
a statement has raised, no later statement runs. -/
def andThenSetup (r : Except Unit DB) (f : DB → Except Unit DB) : Except Unit DB :=
  match r with
  | Except.error e => Except.error e
  | Except.ok dbx => f dbx

/-- Statements of the try block up to the user voice insert (lines 133-147):
device creation, users INSERT, optional user voice INSERT.  `failAt` injects a
raised exception at the statement of the given step (1 device creation, 2 user
insert, 3 user voice insert); a step the source skips cannot fail. -/
def setup_phase1 (db0 : DB) (inp : SetupInput) (failAt : Option Nat) : Except Unit DB :=
  if failAt = some 2 then Except.error () else
  if failAt = some 3 ∧ inp.voice_file.isSome = true then Except.error () else
  setup_step_user_voice
    (setup_step_user (get_or_create_microphone_device db0 inp.device_name).1 inp) inp
    (get_or_create_microphone_device db0 inp.device_name).2

/-- Statements of the try block after the user voice insert (lines 149-160):
ai INSERT and optional ai voice INSERT (4 ai insert, 5 ai voice insert). -/
def setup_phase2 (db0 : DB) (inp : SetupInput) (failAt : Option Nat) (db3 : DB) : Except Unit DB :=
  if failAt = some 4 then Except.error () else
  if failAt = some 5 ∧ inp.ai_voice_file.isSome = true then Except.error () else
  setup_step_ai_voice (setup_step_ai db3 inp) inp db3.next_ai_id
    (get_or_create_microphone_device db0 inp.device_name).2

/-- The body of the try block of `setup_form` (lines 131-161), run against the
connection's open transaction.  An `Except.error` models a raised exception
that `setup_form` answers with `conn.rollback()`. -/
def setup_txn (db0 : DB) (inp : SetupInput) (failAt : Option Nat) : Except Unit DB :=
  if failAt = some 1 then Except.error () else
  andThenSetup (setup_phase1 db0 inp failAt) (setup_phase2 db0 inp failAt)

/-- Outcome of one submission of the setup form. -/
inductive SetupOutcome where
  | validationError
  | failed
  | success
deriving DecidableEq

/-- Embedding of `setup_form` (lines 121-170), the submit branch: required
field validation before any storage access; then the transaction body; on an
exception the connection is rolled back, so the caller keeps the original
state; on completion `conn.commit()` makes the new state visible. -/
def setup_form (db : DB) (inp : SetupInput) (failAt : Option Nat) : DB × SetupOutcome :=
  if !(requiredOk inp) then (db, SetupOutcome.validationError)
  else
    match setup_txn db inp failAt with
    | Except.error _ => (db, SetupOutcome.failed)
    | Except.ok db1 => (db1, SetupOutcome.success)

/-- Fixture: an admin credential matching password "pw0" under the identity
hash function (hash of "pw0" ++ "s0" is "pw0s0"). -/
def credA : AdminCredential := AdminCredential.mk "admin" "pw0s0" "s0" true

/-- Fixture: a credential store holding just `credA`. -/
def storeA : AdminStore := [credA]

/-- Fixture: a database with one 'Microphone' device type and one device
already named "Desk Mic". -/
def dbA : DB :=
  DB.mk [DeviceType.mk 1 "Microphone" "desc0"] [Device.mk 1 "Desk Mic" 1 10] [] [] [] 2 2 1 11

/-- Fixture: a database with one device type named "Sensor". -/
def dbB : DB :=
  DB.mk [DeviceType.mk 1 "Sensor" "desc0"] [] [] [] [] 2 1 1 1

/-- Fixture: a setup-form input with every required field filled, a user voice
sample supplied and no AI voice sample. -/
def inpA : SetupInput :=
  SetupInput.mk "Ada" "A" "ada@x.io" "123" "" "" "Desk Mic" (some [1, 2]) "Helper" "Be concise" none "u1"

/-- Fixture: a session that has already seen five failed login attempts. -/
def sessionL : Session := Session.mk false none 5

/-- Fixture: a session with three failed login attempts. -/
def session3 : Session := Session.mk false none 3

/-- Helper: appending an element satisfying the predicate to a list where
`find?` fails makes `find?` return that element. -/
theorem find?_append_none {α : Type} (p : α → Bool) (l : List α) (x : α)
    (h : List.find? p l = none) (hx : p x = true) : List.find? p (l ++ [x]) = some x := by
  induction l with
  | nil => simp [List.find?_cons_of_pos, hx]
  | cons a as ih =>
    rw [List.cons_append]
    cases hpa : p a with
    | true =>
      rw [List.find?_cons_of_pos _ hpa] at h
      exact absurd h (by simp)
    | false =>
      rw [List.find?_cons_of_neg _ (by simp [hpa])] at h
      rw [List.find?_cons_of_neg _ (by simp [hpa])]
      exact ih h

/-- Helper: `rotate` maps the found credential to its rotated form. -/
theorem findCred_rotate (hashf : String → String) (store : AdminStore) (u npw ns : String)
    (c : AdminCredential) (h : findCred store u = some c) :
    findCred (rotate hashf store u npw ns) u =
      some (AdminCredential.mk c.username (hashf (npw ++ ns)) ns c.isActive) := by
  induction store with
  | nil => simp [findCred] at h
  | cons a as ih =>
    by_cases ha : (a.username == u) = true
    · unfold findCred at h
      rw [@List.find?_cons_of_pos AdminCredential (fun c => c.username == u) a as ha] at h
      cases h
      unfold findCred rotate
      rw [List.map_cons, if_pos ha]
      exact @List.find?_cons_of_pos AdminCredential (fun c => c.username == u) _ _ ha
    · unfold findCred at h
      rw [@List.find?_cons_of_neg AdminCredential (fun c => c.username == u) a as ha] at h
      have ih2 := ih h
      unfold findCred rotate at ih2 ⊢
      rw [List.map_cons, if_neg ha]
      rw [@List.find?_cons_of_neg AdminCredential (fun c => c.username == u) _ _ ha]
      exact ih2

/-- Helper: right cancellation of string concatenation. -/
theorem string_append_cancel {a b s : String} (h : a ++ s = b ++ s) : a = b := by
  apply String.ext
  have hd : a.data ++ s.data = b.data ++ s.data := by
    rw [← String.data_append, ← String.data_append, h]
  exact List.append_cancel_right hd

/-- C4: `verify_password` fails closed — it returns true exactly when the
username has a row, that row is active, and the hash of the candidate password
with the stored salt equals the stored hash; so an unknown username, an
inactive row (even with a matching hash), or a hash mismatch all yield false,
and an absent username is an ordinary false, not an exception. -/
theorem C4_verify_fails_closed (hashf : String → String) (store : AdminStore) (u p : String) :
    verify_password hashf store u p = true ↔
      ∃ c, findCred store u = some c ∧ c.isActive = true ∧
        hashf (p ++ c.salt) = c.passwordHash := by
  unfold verify_password
  cases h : findCred store u with
  | none => simp [h]
  | some c =>
    cases hact : c.isActive with
    | false => simp [h, hact]
    | true => simp [h, hact, beq_iff_eq]

/-- C5: the change-password flow is guarded — when the new and confirm
passwords differ, or when the current password does not verify (even with
matching new/confirm), the stored credentials are left untouched and no
rotation is reported; the rotation happens exactly when the outcome is
`changed`, which forces both checks to have passed. -/
theorem C5_change_password_guarded (hashf : String → String) (store : AdminStore)
    (u cur npw cpw nsalt : String) :
    (npw ≠ cpw →
      (change_password_form hashf store u cur npw cpw nsalt).1 = store ∧
      (change_password_form hashf store u cur npw cpw nsalt).2 ≠ ChangeOutcome.changed) ∧
    (verify_password hashf store u cur = false →
      (change_password_form hashf store u cur npw cpw nsalt).1 = store ∧
      (change_password_form hashf store u cur npw cpw nsalt).2 ≠ ChangeOutcome.changed) ∧
    ((change_password_form hashf store u cur npw cpw nsalt).2 = ChangeOutcome.changed →
      npw = cpw ∧ verify_password hashf store u cur = true ∧
      (change_password_form hashf store u cur npw cpw nsalt).1 =
        rotate hashf store u npw nsalt) := by
  unfold change_password_form
  split_ifs with h1 h2 h3
  · exact ⟨fun _ => ⟨rfl, by simp⟩, fun _ => ⟨rfl, by simp⟩, by simp⟩
  · exact ⟨fun _ => ⟨rfl, by simp⟩, fun _ => ⟨rfl, by simp⟩, by simp⟩
  · exact ⟨fun _ => ⟨rfl, by simp⟩, fun _ => ⟨rfl, by simp⟩, by simp⟩
  · have heq : npw = cpw := by
      by_contra hne
      exact h2 (bne_iff_ne.mpr hne)
    have hv : verify_password hashf store u cur = true := by
      cases hvv : verify_password hashf store u cur with
      | true => rfl
      | false => exact absurd (by simp [hvv]) h3
    exact ⟨fun hne => absurd heq hne,
           fun hvf => absurd hv (by simp [hvf]),
           fun _ => ⟨heq, hv, rfl⟩⟩

/-- C5 witness: with a wrong current password and matching new passwords, the
store is unchanged and no rotation is reported. -/
theorem C5_change_password_guarded_witness :
    (change_password_form id storeA "admin" "bad" "n1" "n1" "s9").1 = storeA ∧
    (change_password_form id storeA "admin" "bad" "n1" "n1" "s9").2 ≠ ChangeOutcome.changed :=
  (C5_change_password_guarded id storeA "admin" "bad" "n1" "n1" "s9").2.1 (by decide)

/-- C6: rotating an existing active credential to password `p` under a fresh
salt makes `verify_password` accept `p` immediately, and (for a collision-free
hash) reject any old password different from `p`. -/
theorem C6_rotate_roundtrip (hashf : String → String) (store : AdminStore)
    (u oldPw p nsalt : String) (c : AdminCredential)
    (hmem : findCred store u = some c) (hact : c.isActive = true)
    (hinj : Function.Injective hashf) (hne : oldPw ≠ p) :
    verify_password hashf (rotate hashf store u p nsalt) u p = true ∧
    verify_password hashf (rotate hashf store u p nsalt) u oldPw = false := by
  have hfr := findCred_rotate hashf store u p nsalt c hmem
  constructor
  · unfold verify_password
    rw [hfr]
    simp [hact]
  · unfold verify_password
    rw [hfr]
    simp only [hact, Bool.not_true, Bool.false_eq_true, if_false, beq_eq_false_iff_ne]
    intro heq
    exact hne (string_append_cancel (hinj heq))

/-- C6 witness: rotating the fixture credential from "pw0" to "pw1" makes
"pw1" verify and "pw0" fail. -/
theorem C6_rotate_roundtrip_witness :
    verify_password id (rotate id storeA "admin" "pw1" "s1") "admin" "pw1" = true ∧
    verify_password id (rotate id storeA "admin" "pw1" "s1") "admin" "pw0" = false :=
  C6_rotate_roundtrip id storeA "admin" "pw0" "pw1" "s1" credA (by decide) (by decide)
    Function.injective_id (by decide)

/-- C2 counterexample: in a session that has already recorded five failed
login attempts, a sixth attempt with correct credentials still consults
`verify_password` and is accepted — the session is not locked. -/
theorem C2_counterexample :
    sessionL.login_attempts = 5 ∧
    (login_form id storeA sessionL "admin" "pw0").verifyConsulted = true ∧
    (login_form id storeA sessionL "admin" "pw0").accepted = true ∧
    (login_form id storeA sessionL "admin" "pw0").session.authenticated = true := by
  decide

/-- C2 amended: reaching five failed attempts halts the failing run with an
error, but does not gate later attempts: any further attempt with non-empty
fields still consults `verify_password`; if the credential verifies the
session becomes authenticated, and if it fails the counter grows again and
the run is halted. -/
theorem C2_no_lockout_amended (hashf : String → String) (store : AdminStore) (s : Session)
    (u p : String) (hu : u ≠ "") (hp : p ≠ "") (h5 : 5 ≤ s.login_attempts) :
    (login_form hashf store s u p).verifyConsulted = true ∧
    (verify_password hashf store u p = true →
      (login_form hashf store s u p).accepted = true ∧
      (login_form hashf store s u p).session.authenticated = true) ∧
    (verify_password hashf store u p = false →
      (login_form hashf store s u p).accepted = false ∧
      (login_form hashf store s u p).halted = true ∧
      (login_form hashf store s u p).session.login_attempts = s.login_attempts + 1) := by
  cases hv : verify_password hashf store u p with
  | true => simp [login_form, hu, hp, hv]
  | false =>
    simp [login_form, hu, hp, hv]
    omega

/-- C2 witness: the amended behavior at the concrete locked-out fixture with
the correct password. -/
theorem C2_no_lockout_amended_witness :
    (login_form id storeA sessionL "admin" "pw0").verifyConsulted = true ∧
    (verify_password id storeA "admin" "pw0" = true →
      (login_form id storeA sessionL "admin" "pw0").accepted = true ∧
      (login_form id storeA sessionL "admin" "pw0").session.authenticated = true) ∧
    (verify_password id storeA "admin" "pw0" = false →
      (login_form id storeA sessionL "admin" "pw0").accepted = false ∧
      (login_form id storeA sessionL "admin" "pw0").halted = true ∧
      (login_form id storeA sessionL "admin" "pw0").session.login_attempts =
        sessionL.login_attempts + 1) :=
  C2_no_lockout_amended id storeA sessionL "admin" "pw0" (by decide) (by decide) (by decide)

/-- C3 counterexample: a successful login in a session with three recorded
failed attempts authenticates but leaves the counter at 3 rather than
resetting it to 0. -/
theorem C3_counterexample :
    (login_form id storeA session3 "admin" "pw0").accepted = true ∧
    (login_form id storeA session3 "admin" "pw0").session.authenticated = true ∧
    (login_form id storeA session3 "admin" "pw0").session.login_attempts = 3 ∧
    (login_form id storeA session3 "admin" "pw0").session.login_attempts ≠ 0 := by
  decide

/-- C3 amended: a verifying login sets `authenticated` and records the
username but leaves `login_attempts` unchanged; the counter is reset to 0 only
by `logout`, so a failed login after the next logout starts counting from 0. -/
theorem C3_login_no_reset_amended (hashf : String → String) (store : AdminStore) (s : Session)
    (u p : String) (hu : u ≠ "") (hp : p ≠ "")
    (hv : verify_password hashf store u p = true) :
    (login_form hashf store s u p).session.authenticated = true ∧
    (login_form hashf store s u p).session.username = some u ∧
    (login_form hashf store s u p).session.login_attempts = s.login_attempts ∧
    (logout ((login_form hashf store s u p).session)).login_attempts = 0 := by
  simp [login_form, logout, hu, hp, hv]

/-- C3 witness: the amended behavior at the concrete fixture with three prior
failures. -/
theorem C3_login_no_reset_amended_witness :
    (login_form id storeA session3 "admin" "pw0").session.authenticated = true ∧
    (login_form id storeA session3 "admin" "pw0").session.username = some "admin" ∧
    (login_form id storeA session3 "admin" "pw0").session.login_attempts =
      session3.login_attempts ∧
    (logout ((login_form id storeA session3 "admin" "pw0").session)).login_attempts = 0 :=
  C3_login_no_reset_amended id storeA session3 "admin" "pw0" (by decide) (by decide) (by decide)

/-- Helper: after the DO NOTHING upsert a 'Microphone' device-type row exists. -/
theorem micTypeUpsert_found (db : DB) :
    ∃ t, List.find? (fun r => r.type_name == "Microphone") (micTypeUpsert db).device_types =
      some t := by
  unfold micTypeUpsert
  cases h : List.find? (fun r => r.type_name == "Microphone") db.device_types with
  | some t => exact ⟨t, h⟩
  | none =>
    exact ⟨DeviceType.mk db.next_type_id "Microphone" micDescription,
      find?_append_none _ db.device_types _ h rfl⟩

/-- Helper: the type upsert never touches the device rows. -/
theorem micTypeUpsert_devices (db : DB) : (micTypeUpsert db).devices = db.devices := by
  unfold micTypeUpsert
  cases h : List.find? (fun r => r.type_name == "Microphone") db.device_types <;> rfl

/-- Helper: the type upsert never touches the user rows. -/
theorem micTypeUpsert_users (db : DB) : (micTypeUpsert db).users = db.users := by
  unfold micTypeUpsert
  cases h : List.find? (fun r => r.type_name == "Microphone") db.device_types <;> rfl

/-- Helper: the type upsert never touches the ai rows. -/
theorem micTypeUpsert_ais (db : DB) : (micTypeUpsert db).ais = db.ais := by
  unfold micTypeUpsert
  cases h : List.find? (fun r => r.type_name == "Microphone") db.device_types <;> rfl

/-- Helper: the type upsert never touches the voice rows. -/
theorem micTypeUpsert_voice (db : DB) :
    (micTypeUpsert db).voice_recognition = db.voice_recognition := by
  unfold micTypeUpsert
  cases h : List.find? (fun r => r.type_name == "Microphone") db.device_types <;> rfl

/-- Helper: the type upsert never touches the device id counter. -/
theorem micTypeUpsert_next_device_id (db : DB) :
    (micTypeUpsert db).next_device_id = db.next_device_id := by
  unfold micTypeUpsert
  cases h : List.find? (fun r => r.type_name == "Microphone") db.device_types <;> rfl

/-- Helper: the type upsert never touches the ai id counter. -/
theorem micTypeUpsert_next_ai_id (db : DB) :
    (micTypeUpsert db).next_ai_id = db.next_ai_id := by
  unfold micTypeUpsert
  cases h : List.find? (fun r => r.type_name == "Microphone") db.device_types <;> rfl

/-- Helper: the type upsert never touches the uuid counter. -/
theorem micTypeUpsert_next_uuid (db : DB) :
    (micTypeUpsert db).next_uuid = db.next_uuid := by
  unfold micTypeUpsert
  cases h : List.find? (fun r => r.type_name == "Microphone") db.device_types <;> rfl

/-- Helper: when the 'Microphone' type already exists the upsert is a no-op. -/
theorem micTypeUpsert_of_found (db : DB) (t : DeviceType)
    (hex : List.find? (fun r => r.type_name == "Microphone") db.device_types = some t) :
    micTypeUpsert db = db := by
  unfold micTypeUpsert
  rw [hex]

/-- C10: when the 'Microphone' device type already exists, provisioning a
device leaves the device-type rows (hence the existing description) unchanged,
and always inserts one fresh device row whose generated unique identifier
differs from that of every existing device — even when a device with the same
name is already present. -/
theorem C10_mic_upsert_do_nothing (db : DB) (dn : String) (t : DeviceType)
    (hex : List.find? (fun r => r.type_name == "Microphone") db.device_types = some t)
    (hfresh : ∀ d ∈ db.devices, d.unique_identifier < db.next_uuid) :
    (get_or_create_microphone_device db dn).1.device_types = db.device_types ∧
    (get_or_create_microphone_device db dn).1.devices =
      db.devices ++ [Device.mk db.next_device_id dn t.id db.next_uuid] ∧
    ∀ d ∈ db.devices, d.unique_identifier ≠ db.next_uuid := by
  have hup := micTypeUpsert_of_found db t hex
  unfold get_or_create_microphone_device
  simp only [hup, hex]
  exact ⟨trivial, rfl, fun d hd => Nat.ne_of_lt (hfresh d hd)⟩

/-- C10 witness: the fixture database already has the 'Microphone' type and a
device named "Desk Mic"; provisioning another "Desk Mic" keeps the type rows
and appends a fresh device. -/
theorem C10_mic_upsert_do_nothing_witness :
    (get_or_create_microphone_device dbA "Desk Mic").1.device_types = dbA.device_types ∧
    (get_or_create_microphone_device dbA "Desk Mic").1.devices =
      dbA.devices ++
        [Device.mk dbA.next_device_id "Desk Mic" (DeviceType.mk 1 "Microphone" "desc0").id
          dbA.next_uuid] := by
  have h := C10_mic_upsert_do_nothing dbA "Desk Mic" (DeviceType.mk 1 "Microphone" "desc0")
    (by decide) (by decide)
  exact ⟨h.1, h.2.1⟩

/-- Helper: overwriting the description of the rows matching a name maps the
found row to its updated form. -/
theorem find?_update_description (l : List DeviceType) (tn d : String) (t : DeviceType)
    (h : List.find? (fun r => r.type_name == tn) l = some t) :
    List.find? (fun r => r.type_name == tn)
      (List.map (fun r => if r.type_name == tn then DeviceType.mk r.id r.type_name d else r) l) =
      some (DeviceType.mk t.id t.type_name d) := by
  induction l with
  | nil => simp at h
  | cons a as ih =>
    by_cases ha : (a.type_name == tn) = true
    · rw [@List.find?_cons_of_pos DeviceType (fun r => r.type_name == tn) a as ha] at h
      cases h
      rw [List.map_cons, if_pos ha]
      exact @List.find?_cons_of_pos DeviceType (fun r => r.type_name == tn) _ _ ha
    · rw [@List.find?_cons_of_neg DeviceType (fun r => r.type_name == tn) a as ha] at h
      rw [List.map_cons, if_neg ha]
      rw [@List.find?_cons_of_neg DeviceType (fun r => r.type_name == tn) _ _ ha]
      exact ih h

/-- Helper: rows whose name does not match survive the description overwrite
unchanged. -/
theorem mem_update_description (l : List DeviceType) (tn d : String) (r : DeviceType)
    (hr : r ∈ l) (hne : (r.type_name == tn) = false) :
    r ∈ List.map (fun x => if x.type_name == tn then DeviceType.mk x.id x.type_name d else x) l := by
  have hfix : (if r.type_name == tn then DeviceType.mk r.id r.type_name d else r) = r := by
    rw [if_neg (by simp [hne])]
  exact List.mem_map.mpr ⟨r, hr, hfix⟩

/-- C7: `create_device_type` is an upsert keyed on the type name — when no row
with the name exists a new row is inserted under a fresh id, and when one
exists its description is overwritten while its id (and every other row) is
left unchanged. -/
theorem C7_create_type_upsert (db : DB) (tn d : String) :
    (List.find? (fun r => r.type_name == tn) db.device_types = none →
      (create_device_type db tn d).1.device_types =
        db.device_types ++ [DeviceType.mk db.next_type_id tn d] ∧
      (create_device_type db tn d).2 = db.next_type_id) ∧
    (∀ t, List.find? (fun r => r.type_name == tn) db.device_types = some t →
      (create_device_type db tn d).2 = t.id ∧
      List.find? (fun r => r.type_name == tn) (create_device_type db tn d).1.device_types =
        some (DeviceType.mk t.id t.type_name d) ∧
      ∀ r ∈ db.device_types, (r.type_name == tn) = false →
        r ∈ (create_device_type db tn d).1.device_types) := by
  constructor
  · intro h
    unfold create_device_type
    rw [h]
    exact ⟨rfl, rfl⟩
  · intro t ht
    unfold create_device_type
    rw [ht]
    exact ⟨rfl, find?_update_description _ tn d t ht,
      fun r hr hne => mem_update_description _ tn d r hr hne⟩

/-- C7 witness: re-creating the existing "Sensor" type overwrites its
description and keeps its id. -/
theorem C7_create_type_upsert_witness :
    (create_device_type dbB "Sensor" "d2").2 = 1 ∧
    List.find? (fun r => r.type_name == "Sensor")
      (create_device_type dbB "Sensor" "d2").1.device_types =
      some (DeviceType.mk 1 "Sensor" "d2") := by
  have h := (C7_create_type_upsert dbB "Sensor" "d2").2 (DeviceType.mk 1 "Sensor" "desc0")
    (by decide)
  exact ⟨h.1, h.2.1⟩

/-- Helper: a truthy optional string is not `none`. -/
theorem truthyStr_isNone {o : Option String} (h : truthyStr o = true) : o.isNone = false := by
  cases o with
  | none => simp [truthyStr] at h
  | some s => rfl

/-- Helper: a truthy optional integer is not `none`. -/
theorem truthyNat_isNone {o : Option Nat} (h : truthyNat o = true) : o.isNone = false := by
  cases o with
  | none => simp [truthyNat] at h
  | some n => rfl

/-- Helper: two optionals that are not both `none` fail the both-None test. -/
theorem not_both_none {uid : Option String} {aid : Option Nat}
    (h : ¬(uid = none ∧ aid = none)) : (uid.isNone && aid.isNone) = false := by
  cases uid with
  | some s => rfl
  | none =>
    cases aid with
    | some n => rfl
    | none => exact absurd ⟨rfl, rfl⟩ h

/-- Helper: a successful voice insert appends exactly the given row and
certifies that the referenced device exists. -/
theorem insertVoiceRow_ok {db : DB} {row : VoiceRow} {db1 : DB}
    (h : insertVoiceRow db row = Except.ok db1) :
    db1 = { db with voice_recognition := db.voice_recognition ++ [row] } ∧
    List.any db.devices (fun d => d.id == row.recorded_on) = true := by
  unfold insertVoiceRow at h
  by_cases hc : List.any db.devices (fun d => d.id == row.recorded_on) = true
  · rw [if_pos hc] at h
    injection h with h1
    exact ⟨h1.symm, hc⟩
  · rw [if_neg hc] at h
    exact absurd h (by simp)

/-- Helper: the voice insert succeeds when the referenced device exists. -/
theorem insertVoiceRow_of_present {db : DB} {row : VoiceRow}
    (hc : List.any db.devices (fun d => d.id == row.recorded_on) = true) :
    insertVoiceRow db row =
      Except.ok { db with voice_recognition := db.voice_recognition ++ [row] } := by
  unfold insertVoiceRow
  rw [if_pos hc]

/-- Helper: the voice insert raises when the referenced device is absent. -/
theorem insertVoiceRow_error_of_absent {db : DB} {row : VoiceRow}
    (hc : List.any db.devices (fun d => d.id == row.recorded_on) = false) :
    insertVoiceRow db row = Except.error () := by
  unfold insertVoiceRow
  rw [if_neg (by simp [hc])]

/-- C8 counterexample: an owner argument that is supplied but falsy (the empty
string as user id, no AI id) slips past the both-None guard, after which
neither insert branch runs — the call reports success while storing no sample,
instead of failing as the claim requires. -/
theorem C8_counterexample :
    (some "" : Option String) ≠ none ∧
    truthyStr (some "") = false ∧
    save_voice_recognition dbA (some "") none [1] (some 1) = Except.ok (dbA, true) ∧
    dbA.voice_recognition = [] := by
  refine ⟨by simp, rfl, rfl, rfl⟩

/-- C8 amended: `save_voice_recognition` returns False storing nothing when
the bytes are empty, when both owner arguments are None, or when the device id
is None or 0; with a truthy user id (else a truthy AI id) it attempts exactly
one insert, which raises a storage error if the referenced device does not
exist and stores exactly that one sample otherwise; but with an owner that is
supplied yet falsy (empty-string user id, AI id 0) it returns True while
storing nothing. -/
theorem C8_save_guarded_amended (db : DB) (uid : Option String) (aid : Option Nat)
    (data : List Nat) (did : Option Nat) :
    ((data.isEmpty = true ∨ (uid = none ∧ aid = none) ∨ truthyNat did = false) →
      save_voice_recognition db uid aid data did = Except.ok (db, false)) ∧
    (truthyStr uid = true → data.isEmpty = false → truthyNat did = true →
      (List.any db.devices (fun dv => dv.id == did.getD 0) = false →
        save_voice_recognition db uid aid data did = Except.error ()) ∧
      (List.any db.devices (fun dv => dv.id == did.getD 0) = true →
        save_voice_recognition db uid aid data did =
          Except.ok ({ db with voice_recognition :=
              db.voice_recognition ++ [VoiceRow.mk uid none data (did.getD 0)] }, true))) ∧
    (truthyStr uid = false → truthyNat aid = true → data.isEmpty = false → truthyNat did = true →
      (List.any db.devices (fun dv => dv.id == did.getD 0) = false →
        save_voice_recognition db uid aid data did = Except.error ()) ∧
      (List.any db.devices (fun dv => dv.id == did.getD 0) = true →
        save_voice_recognition db uid aid data did =
          Except.ok ({ db with voice_recognition :=
              db.voice_recognition ++ [VoiceRow.mk none aid data (did.getD 0)] }, true))) ∧
    (truthyStr uid = false → truthyNat aid = false → ¬(uid = none ∧ aid = none) →
      data.isEmpty = false → truthyNat did = true →
      save_voice_recognition db uid aid data did = Except.ok (db, true)) := by
  refine ⟨?_, ?_, ?_, ?_⟩
  · intro h
    have hg : (data.isEmpty || (uid.isNone && aid.isNone) || !(truthyNat did)) = true := by
      rcases h with h | ⟨h1, h2⟩ | h
      · simp [h]
      · simp [h1, h2]
      · simp [h]
    unfold save_voice_recognition
    rw [if_pos hg]
  · intro huid hdata hdid
    have hg : ¬((data.isEmpty || (uid.isNone && aid.isNone) || !(truthyNat did)) = true) := by
      simp [hdata, truthyStr_isNone huid, hdid]
    constructor
    · intro hdev
      unfold save_voice_recognition
      rw [if_neg hg, if_pos huid,
        @insertVoiceRow_error_of_absent db (VoiceRow.mk uid none data (did.getD 0)) hdev]
    · intro hdev
      unfold save_voice_recognition
      rw [if_neg hg, if_pos huid,
        @insertVoiceRow_of_present db (VoiceRow.mk uid none data (did.getD 0)) hdev]
  · intro huid haid hdata hdid
    have hg : ¬((data.isEmpty || (uid.isNone && aid.isNone) || !(truthyNat did)) = true) := by
      simp [hdata, truthyNat_isNone haid, hdid]
    constructor
    · intro hdev
      unfold save_voice_recognition
      rw [if_neg hg, if_neg (by simp [huid]), if_pos haid,
        @insertVoiceRow_error_of_absent db (VoiceRow.mk none aid data (did.getD 0)) hdev]
    · intro hdev
      unfold save_voice_recognition
      rw [if_neg hg, if_neg (by simp [huid]), if_pos haid,
        @insertVoiceRow_of_present db (VoiceRow.mk none aid data (did.getD 0)) hdev]
  · intro huid haid hboth hdata hdid
    have hg : ¬((data.isEmpty || (uid.isNone && aid.isNone) || !(truthyNat did)) = true) := by
      simp [hdata, not_both_none hboth, hdid]
    unfold save_voice_recognition
    rw [if_neg hg, if_neg (by simp [huid]), if_neg (by simp [haid])]

/-- C8 witness: with a truthy user id, non-empty bytes and an existing device,
exactly the one user-owned sample is stored. -/
theorem C8_save_guarded_amended_witness :
    save_voice_recognition dbA (some "u1") none [1] (some 1) =
      Except.ok ({ dbA with voice_recognition :=
          dbA.voice_recognition ++
            [VoiceRow.mk (some "u1") none [1] ((some 1 : Option Nat).getD 0)] }, true) :=
  ((C8_save_guarded_amended dbA (some "u1") none [1] (some 1)).2.1
    (by decide) (by decide) (by decide)).2 (by decide)

/-- C9: when both a truthy user id and an AI id are supplied with non-empty
bytes and an existing device, exactly one sample row is inserted and it is
owned by the user only (`ai_id` is None in the stored row); moreover every
successful call preserves the invariant that no stored row carries both a
user owner and an AI owner. -/
theorem C9_user_owner_precedence (db : DB) (data : List Nat) (did : Option Nat)
    (u : String) (a : Nat)
    (hu : u ≠ "") (hdata : data.isEmpty = false) (hdid : truthyNat did = true)
    (hdev : List.any db.devices (fun dv => dv.id == did.getD 0) = true) :
    save_voice_recognition db (some u) (some a) data did =
      Except.ok ({ db with voice_recognition :=
          db.voice_recognition ++ [VoiceRow.mk (some u) none data (did.getD 0)] }, true) ∧
    (∀ uid aid vd dd db1 b,
      save_voice_recognition db uid aid vd dd = Except.ok (db1, b) →
      (∀ r ∈ db.voice_recognition, r.user_id = none ∨ r.ai_id = none) →
      ∀ r ∈ db1.voice_recognition, r.user_id = none ∨ r.ai_id = none) := by
  constructor
  · have huid : truthyStr (some u) = true := by simp [truthyStr, hu]
    have hg : ¬((data.isEmpty ||
        ((some u : Option String).isNone && (some a : Option Nat).isNone) ||
        !(truthyNat did)) = true) := by
      simp [hdata, hdid]
    unfold save_voice_recognition
    rw [if_neg hg, if_pos huid,
      @insertVoiceRow_of_present db (VoiceRow.mk (some u) none data (did.getD 0)) hdev]
  · intro uid aid vd dd db1 b hok hinv r hr
    unfold save_voice_recognition at hok
    by_cases hg : (vd.isEmpty || (uid.isNone && aid.isNone) || !(truthyNat dd)) = true
    · rw [if_pos hg] at hok
      injection hok with h1
      injection h1 with h2 h3
      subst h2
      exact hinv r hr
    · rw [if_neg hg] at hok
      by_cases hu2 : truthyStr uid = true
      · rw [if_pos hu2] at hok
        cases hins : insertVoiceRow db (VoiceRow.mk uid none vd (dd.getD 0)) with
        | error e =>
          rw [hins] at hok
          exact absurd hok (by simp)
        | ok dbx =>
          rw [hins] at hok
          injection hok with h1
          injection h1 with h2 h3
          subst h2
          obtain ⟨hdb, -⟩ := insertVoiceRow_ok hins
          subst hdb
          rcases List.mem_append.mp hr with hl | hrr
          · exact hinv r hl
          · rw [List.mem_singleton.mp hrr]
            exact Or.inr rfl
      · rw [if_neg hu2] at hok
        by_cases ha2 : truthyNat aid = true
        · rw [if_pos ha2] at hok
          cases hins : insertVoiceRow db (VoiceRow.mk none aid vd (dd.getD 0)) with
          | error e =>
            rw [hins] at hok
            exact absurd hok (by simp)
          | ok dbx =>
            rw [hins] at hok
            injection hok with h1
            injection h1 with h2 h3
            subst h2
            obtain ⟨hdb, -⟩ := insertVoiceRow_ok hins
            subst hdb
            rcases List.mem_append.mp hr with hl | hrr
            · exact hinv r hl
            · rw [List.mem_singleton.mp hrr]
              exact Or.inl rfl
        · rw [if_neg ha2] at hok
          injection hok with h1
          injection h1 with h2 h3
          subst h2
          exact hinv r hr

/-- C9 witness: both owners supplied at the fixture database — the stored row
is user-owned with no AI owner. -/
theorem C9_user_owner_precedence_witness :
    save_voice_recognition dbA (some "u1") (some 1) [1] (some 1) =
      Except.ok ({ dbA with voice_recognition :=
          dbA.voice_recognition ++
            [VoiceRow.mk (some "u1") none [1] ((some 1 : Option Nat).getD 0)] }, true) :=
  (C9_user_owner_precedence dbA [1] (some 1) "u1" 1
    (by decide) (by decide) (by decide) (by decide)).1

/-- Helper: a raised exception propagates. -/
theorem andThenSetup_error (e : Unit) (f : DB → Except Unit DB) :
    andThenSetup (Except.error e) f = Except.error e := rfl

/-- Helper: after a successful prefix the next statements run. -/
theorem andThenSetup_ok (dbx : DB) (f : DB → Except Unit DB) :
    andThenSetup (Except.ok dbx) f = f dbx := rfl

/-- Helper: a successful optional user voice insert leaves every table except
`voice_recognition` unchanged and grows the voice table by one row exactly
when a voice file was supplied. -/
theorem setup_step_user_voice_ok {db : DB} {inp : SetupInput} {did : Nat} {db1 : DB}
    (h : setup_step_user_voice db inp did = Except.ok db1) :
    db1.device_types = db.device_types ∧ db1.devices = db.devices ∧
    db1.users = db.users ∧ db1.ais = db.ais ∧ db1.next_ai_id = db.next_ai_id ∧
    db1.voice_recognition.length =
      db.voice_recognition.length + (if inp.voice_file.isSome then 1 else 0) := by
  unfold setup_step_user_voice at h
  cases hvf : inp.voice_file with
  | none =>
    rw [hvf] at h
    injection h with h1
    subst h1
    simp
  | some bytes =>
    rw [hvf] at h
    obtain ⟨hdb, -⟩ := insertVoiceRow_ok h
    subst hdb
    simp

/-- Helper: a successful optional ai voice insert leaves every table except
`voice_recognition` unchanged and grows the voice table by one row exactly
when an ai voice file was supplied. -/
theorem setup_step_ai_voice_ok {db : DB} {inp : SetupInput} {ai_id did : Nat} {db1 : DB}
    (h : setup_step_ai_voice db inp ai_id did = Except.ok db1) :
    db1.device_types = db.device_types ∧ db1.devices = db.devices ∧
    db1.users = db.users ∧ db1.ais = db.ais ∧
    db1.voice_recognition.length =
      db.voice_recognition.length + (if inp.ai_voice_file.isSome then 1 else 0) := by
  unfold setup_step_ai_voice at h
  cases hvf : inp.ai_voice_file with
  | none =>
    rw [hvf] at h
    injection h with h1
    subst h1
    simp
  | some bytes =>
    rw [hvf] at h
    obtain ⟨hdb, -⟩ := insertVoiceRow_ok h
    subst hdb
    simp

/-- Helper: field equations for the device-provisioning step. -/
theorem get_or_create_fields (db : DB) (dn : String) (t : DeviceType)
    (ht : List.find? (fun r => r.type_name == "Microphone") (micTypeUpsert db).device_types =
      some t) :
    (get_or_create_microphone_device db dn).1.device_types = (micTypeUpsert db).device_types ∧
    (get_or_create_microphone_device db dn).1.users = db.users ∧
    (get_or_create_microphone_device db dn).1.ais = db.ais ∧
    (get_or_create_microphone_device db dn).1.voice_recognition = db.voice_recognition ∧
    (get_or_create_microphone_device db dn).1.next_ai_id = db.next_ai_id ∧
    (get_or_create_microphone_device db dn).1.devices =
      db.devices ++ [Device.mk db.next_device_id dn t.id db.next_uuid] := by
  unfold get_or_create_microphone_device
  simp only [ht]
  refine ⟨trivial, micTypeUpsert_users db, micTypeUpsert_ais db, micTypeUpsert_voice db,
    micTypeUpsert_next_ai_id db, ?_⟩
  rw [micTypeUpsert_devices, micTypeUpsert_next_device_id, micTypeUpsert_next_uuid]
  rfl

/-- Helper: whenever the transaction body completes, the resulting state holds
exactly the rows of the five steps: one new device under the 'Microphone'
type, one new user, one new ai, and one voice row per supplied sample. -/
theorem setup_txn_ok_shape (db : DB) (inp : SetupInput) (failAt : Option Nat) (db5 : DB)
    (hok : setup_txn db inp failAt = Except.ok db5) :
    ∃ t : DeviceType,
      List.find? (fun r => r.type_name == "Microphone") db5.device_types = some t ∧
      db5.devices = db.devices ++ [Device.mk db.next_device_id inp.device_name t.id db.next_uuid] ∧
      db5.users = db.users ++ [userRowOf inp] ∧
      db5.ais = db.ais ++ [AIRow.mk db.next_ai_id inp.ai_name inp.ai_base_prompt] ∧
      db5.voice_recognition.length =
        db.voice_recognition.length + (if inp.voice_file.isSome then 1 else 0) +
          (if inp.ai_voice_file.isSome then 1 else 0) := by
  obtain ⟨t, ht⟩ := micTypeUpsert_found db
  obtain ⟨hgdt, hgu, hga, hgv, hgna, hgdev⟩ := get_or_create_fields db inp.device_name t ht
  unfold setup_txn at hok
  by_cases h1 : failAt = some 1
  · rw [if_pos h1] at hok
    exact absurd hok (by simp)
  rw [if_neg h1] at hok
  cases hp1 : setup_phase1 db inp failAt with
  | error e =>
    rw [hp1, andThenSetup_error] at hok
    exact absurd hok (by simp)
  | ok db3 =>
    rw [hp1, andThenSetup_ok] at hok
    unfold setup_phase2 at hok
    by_cases h4 : failAt = some 4
    · rw [if_pos h4] at hok
      exact absurd hok (by simp)
    rw [if_neg h4] at hok
    by_cases h5 : failAt = some 5 ∧ inp.ai_voice_file.isSome = true
    · rw [if_pos h5] at hok
      exact absurd hok (by simp)
    rw [if_neg h5] at hok
    unfold setup_phase1 at hp1
    by_cases h2 : failAt = some 2
    · rw [if_pos h2] at hp1
      exact absurd hp1 (by simp)
    rw [if_neg h2] at hp1
    by_cases h3 : failAt = some 3 ∧ inp.voice_file.isSome = true
    · rw [if_pos h3] at hp1
      exact absurd hp1 (by simp)
    rw [if_neg h3] at hp1
    obtain ⟨hv3dt, hv3dev, hv3u, hv3a, hv3n, hv3len⟩ := setup_step_user_voice_ok hp1
    obtain ⟨hv5dt, hv5dev, hv5u, hv5a, hv5len⟩ := setup_step_ai_voice_ok hok
    refine ⟨t, ?_, ?_, ?_, ?_, ?_⟩
    · have dt5 : db5.device_types = db3.device_types := hv5dt
      have dt3 : db3.device_types =
          (get_or_create_microphone_device db inp.device_name).1.device_types := hv3dt
      rw [dt5, dt3, hgdt]
      exact ht
    · have d5 : db5.devices = db3.devices := hv5dev
      have d3 : db3.devices =
          (get_or_create_microphone_device db inp.device_name).1.devices := hv3dev
      exact d5.trans (d3.trans hgdev)
    · have u5 : db5.users = db3.users := hv5u
      have u3 : db3.users =
          (get_or_create_microphone_device db inp.device_name).1.users ++ [userRowOf inp] := hv3u
      rw [u5, u3, hgu]
    · have a5 : db5.ais =
          db3.ais ++ [AIRow.mk db3.next_ai_id inp.ai_name inp.ai_base_prompt] := hv5a
      have a3 : db3.ais =
          (get_or_create_microphone_device db inp.device_name).1.ais := hv3a
      have n3 : db3.next_ai_id =
          (get_or_create_microphone_device db inp.device_name).1.next_ai_id := hv3n
      rw [a5, a3, hga, n3, hgna]
    · have l5 : db5.voice_recognition.length =
          db3.voice_recognition.length + (if inp.ai_voice_file.isSome then 1 else 0) := hv5len
      have l3 : db3.voice_recognition.length =
          (get_or_create_microphone_device db inp.device_name).1.voice_recognition.length +
            (if inp.voice_file.isSome then 1 else 0) := hv3len
      have lg : (get_or_create_microphone_device db inp.device_name).1.voice_recognition.length =
          db.voice_recognition.length := congrArg List.length hgv
      omega

/-- C1: for every input passing the required-field validation and every error
injection point, the setup transaction is atomic — on failure the state is
exactly the original one (nothing persists), and on success the state holds
exactly one new device (typed under the 'Microphone' row of the final state),
one new user, one new ai, and as many new voice rows as samples supplied. -/
theorem C1_setup_atomic (db : DB) (inp : SetupInput) (failAt : Option Nat)
    (hval : requiredOk inp = true) :
    ((setup_form db inp failAt).2 = SetupOutcome.failed → (setup_form db inp failAt).1 = db) ∧
    ((setup_form db inp failAt).2 = SetupOutcome.success →
      ∃ dev urow arow,
        (setup_form db inp failAt).1.devices = db.devices ++ [dev] ∧
        Option.map DeviceType.id
          (List.find? (fun r => r.type_name == "Microphone")
            (setup_form db inp failAt).1.device_types) = some dev.device_type_id ∧
        (setup_form db inp failAt).1.users = db.users ++ [urow] ∧
        (setup_form db inp failAt).1.ais = db.ais ++ [arow] ∧
        (setup_form db inp failAt).1.voice_recognition.length =
          db.voice_recognition.length + (if inp.voice_file.isSome then 1 else 0) +
            (if inp.ai_voice_file.isSome then 1 else 0)) := by
  cases htxn : setup_txn db inp failAt with
  | error e =>
    have hres : setup_form db inp failAt = (db, SetupOutcome.failed) := by
      unfold setup_form
      rw [if_neg (by simp [hval]), htxn]
    rw [hres]
    exact ⟨fun _ => rfl, fun h => absurd h (by simp)⟩
  | ok db5 =>
    have hres : setup_form db inp failAt = (db5, SetupOutcome.success) := by
      unfold setup_form
      rw [if_neg (by simp [hval]), htxn]
    rw [hres]
    refine ⟨fun h => absurd h (by simp), fun _ => ?_⟩
    obtain ⟨t, ht, hdev, hu, ha, hlen⟩ := setup_txn_ok_shape db inp failAt db5 htxn
    refine ⟨Device.mk db.next_device_id inp.device_name t.id db.next_uuid,
      userRowOf inp, AIRow.mk db.next_ai_id inp.ai_name inp.ai_base_prompt,
      hdev, ?_, hu, ha, hlen⟩
    show Option.map DeviceType.id
      (List.find? (fun r => r.type_name == "Microphone") db5.device_types) = some t.id
    rw [ht]
    rfl

/-- C1 witness: injecting a failure at the ai insert (after the user, device
and user-voice rows were attempted) rolls the whole state back to the
original. -/
theorem C1_setup_atomic_witness : (setup_form dbA inpA (some 4)).1 = dbA :=
  (C1_setup_atomic dbA inpA (some 4) (by decide)).1 (by decide)
